import Mathlib

/-!
Verification of the metadata core of the `parquet2` repository
(`src/metadata/file_metadata.rs`), via a shallow embedding in Lean 4.

`FileMetaData` and its methods (`new`, `schema`, `column_order`,
`into_thrift`) are translated directly from the Rust source.  The
collaborating types that the source file imports but whose code is not
part of the provided sources (`ColumnOrder`, `SchemaDescriptor`,
`RowGroupMetaData`, the wire structs of `parquet_format`, and the
schema-tree lowering `ParquetType::to_thrift`) are modelled from the
specification and marked as such in their doc comments.

A Rust panic (such as an out-of-bounds `Vec` index) is modelled by
`Option`: `none` is a panic, `some x` a normal return of `x`.
Fallible Rust functions returning `Result` are modelled with `Except`.
-/

/-- Modelled from the spec: the sort kinds carried by a type-defined
column order ("signed numeric, unsigned numeric, lexicographic"). -/
inductive SortKind
  | Signed
  | Unsigned
  | Lexicographic
  deriving DecidableEq, Repr

/-- Modelled from the spec: `ColumnOrder` is the variant
`{TypeDefinedOrder(sort-kind), Undefined}`, an immutable value type
(`src/metadata/column_order.rs`, not among the provided sources). -/
inductive ColumnOrder
  | TypeDefinedOrder (kind : SortKind)
  | Undefined
  deriving DecidableEq, Repr

/-- Modelled from the spec: repetition rules of schema-tree nodes. -/
inductive Repetition
  | Required
  | Optional
  | Repeated
  deriving DecidableEq, Repr

/-- Modelled from the spec: the physical type of a primitive schema node
(a representative enumeration; the claims never inspect it). -/
inductive PhysicalType
  | Int32
  | Int64
  | ByteArray
  | Boolean
  deriving DecidableEq, Repr

/-- Modelled from the spec: a `SchemaTree` node is either
`Group{name, repetition, ordered children}` or
`Primitive{name, repetition, physical type}` (`crate::schema::types::ParquetType`,
not among the provided sources). -/
inductive ParquetType
  | Primitive (name : String) (rep : Repetition) (ty : PhysicalType)
  | Group (name : String) (rep : Repetition) (children : List ParquetType)

/-- `parquet_format::KeyValue`: a key/value string pair of the wire
format (external crate; key mandatory, value optional). -/
structure KeyValue where
  key : String
  value : Option String
  deriving DecidableEq, Repr

/-- Modelled from the spec: a column-chunk descriptor, "the contiguous
stored data for one leaf column within one row group".  The claims never
inspect its contents, only its identity and position, so it is modelled
as a record of a byte offset and a value count. -/
structure ColumnChunkMetaData where
  file_offset : Int
  num_values : Int
  deriving DecidableEq, Repr

/-- Modelled from the spec: `RowGroupMetaData` is
`{row_count, total_byte_size, ordered sequence of column-chunk descriptors}`
(`src/metadata/row_metadata.rs`, not among the provided sources). -/
structure RowGroupMetaData where
  columns : List ColumnChunkMetaData
  num_rows : Int
  total_byte_size : Int
  deriving DecidableEq, Repr

/-- Modelled from the spec: `SchemaDescriptor` owns the root
`SchemaTree` (`src/metadata/schema_descriptor.rs`, not among the
provided sources). -/
structure SchemaDescriptor where
  root : ParquetType

/-- Modelled from the spec: `SchemaDescriptor::root_schema` returns the
unmodified tree supplied at construction; total, never fails. -/
def SchemaDescriptor.root_schema (s : SchemaDescriptor) : ParquetType :=
  s.root

/-- `FileMetaData` (translated from `src/metadata/file_metadata.rs`):
version, row count, writer identity, row groups, optional key/value
metadata, schema descriptor, optional column orders. -/
structure FileMetaData where
  version : Int
  num_rows : Int
  created_by : Option String
  row_groups : List RowGroupMetaData
  key_value_metadata : Option (List KeyValue)
  schema_descr : SchemaDescriptor
  column_orders : Option (List ColumnOrder)

/-- `FileMetaData::new` (translated from the source): pure aggregate
constructor, stores each argument verbatim. -/
def FileMetaData.new (version : Int) (num_rows : Int)
    (created_by : Option String) (row_groups : List RowGroupMetaData)
    (key_value_metadata : Option (List KeyValue))
    (schema_descr : SchemaDescriptor)
    (column_orders : Option (List ColumnOrder)) : FileMetaData :=
  { version, num_rows, created_by, row_groups, key_value_metadata,
    schema_descr, column_orders }

/-- `FileMetaData::schema` (translated from the source): delegates to
`self.schema_descr.root_schema()`. -/
def FileMetaData.schema (m : FileMetaData) : ParquetType :=
  m.schema_descr.root_schema

/-- `FileMetaData::column_order` (translated from the source):
`self.column_orders.as_ref().map(|data| data[i]).unwrap_or(ColumnOrder::Undefined)`.
The Rust `data[i]` panics when `i` is out of bounds; the panic is
modelled by `none` (via `List.get?`). -/
def FileMetaData.column_order (m : FileMetaData) (i : Nat) :
    Option ColumnOrder :=
  (m.column_orders.map (fun data => data.get? i)).getD
    (some ColumnOrder.Undefined)

/-- `parquet_format::SchemaElement` (external wire struct): one node of
the flattened wire schema.  A group element carries `num_children`; a
primitive element carries its physical type. -/
structure WireSchemaElement where
  name : String
  repetition : Option Repetition
  ty : Option PhysicalType
  num_children : Option Int
  deriving DecidableEq, Repr

/-- The structured *schema not representable in wire grammar* error,
carrying the name of the offending schema node. -/
structure TranslationError where
  node : String
  deriving DecidableEq, Repr

mutual

/-- Modelled from the spec: `ParquetType::to_thrift`
(`src/schema/io_thrift/to_thrift.rs`, not among the provided sources).
It lowers the schema tree into the wire grammar: a depth-first flattening
where a group element announces its child count and a primitive element
carries its physical type.  Per the spec, "some in-memory tree shapes
(e.g. malformed repetition/nesting combinations) may have no wire
representation"; the representative not-representable shape modelled
here is a childless group, whose nesting has no wire encoding.  On
failure the structured error identifies the offending node. -/
def ParquetType.to_thrift :
    ParquetType → Except TranslationError (List WireSchemaElement)
  | .Primitive name rep ty =>
      .ok [{ name, repetition := some rep, ty := some ty,
             num_children := none }]
  | .Group name rep children =>
      if children.isEmpty then
        .error { node := name }
      else
        match toThriftList children with
        | .error e => .error e
        | .ok elems =>
            .ok ({ name, repetition := some rep, ty := none,
                   num_children := some (children.length : Int) } :: elems)

/-- Modelled from the spec: lowering of a forest of schema nodes, child
by child in declared order (helper of `ParquetType.to_thrift`). -/
def toThriftList :
    List ParquetType → Except TranslationError (List WireSchemaElement)
  | [] => .ok []
  | t :: ts =>
      match t.to_thrift, toThriftList ts with
      | .ok a, .ok b => .ok (a ++ b)
      | .error e, _ => .error e
      | _, .error e => .error e

end

/-- `parquet_format::ColumnChunk` (external wire struct): the wire image
of one column-chunk descriptor. -/
structure WireColumnChunk where
  file_offset : Int
  num_values : Int
  deriving DecidableEq, Repr

/-- `parquet_format::RowGroup` (external wire struct): row count, byte
size and the ordered column-chunk list of one row group. -/
structure WireRowGroup where
  columns : List WireColumnChunk
  total_byte_size : Int
  num_rows : Int
  deriving DecidableEq, Repr

/-- `parquet_format::FileMetaData` (external wire struct): the top-level
wire record built by `FileMetaData::into_thrift`. -/
structure WireFileMetaData where
  version : Int
  schema : List WireSchemaElement
  num_rows : Int
  row_groups : List WireRowGroup
  key_value_metadata : Option (List KeyValue)
  created_by : Option String
  column_orders : Option (List ColumnOrder)
  deriving DecidableEq, Repr

/-- Modelled from the spec: `ColumnChunkMetaData::to_thrift` maps the
descriptor field-for-field into its wire image (infallible; the call
site in `into_thrift` collects it without an error path). -/
def ColumnChunkMetaData.to_thrift (c : ColumnChunkMetaData) :
    WireColumnChunk :=
  { file_offset := c.file_offset, num_values := c.num_values }

/-- Modelled from the spec: `RowGroupMetaData::to_thrift`
(`src/metadata/row_metadata.rs`, not among the provided sources) maps
row count, byte size and the column-chunk list field-for-field,
preserving chunk order (infallible; the call site in `into_thrift`
collects it without an error path). -/
def RowGroupMetaData.to_thrift (rg : RowGroupMetaData) : WireRowGroup :=
  { columns := rg.columns.map ColumnChunkMetaData.to_thrift,
    total_byte_size := rg.total_byte_size,
    num_rows := rg.num_rows }

/-- `FileMetaData::into_thrift` (translated from the source): lowers the
aggregate to the wire struct.  Only `self.schema().to_thrift()?` can
fail; every other field is mapped directly, the row groups through
`self.row_groups.iter().map(|v| v.to_thrift()).collect()`, and
`column_orders` is hard-coded to `None` (marked `// todo` in the
source). -/
def FileMetaData.into_thrift (m : FileMetaData) :
    Except TranslationError WireFileMetaData :=
  match m.schema.to_thrift with
  | .error e => .error e
  | .ok schemaElems =>
      .ok { version := m.version,
            schema := schemaElems,
            num_rows := m.num_rows,
            row_groups := m.row_groups.map RowGroupMetaData.to_thrift,
            key_value_metadata := m.key_value_metadata,
            created_by := m.created_by,
            column_orders := none }

/-- Modelled from the spec: reader-side lift of one wire column chunk
back into its domain descriptor (field-for-field). -/
def WireColumnChunk.from_thrift (c : WireColumnChunk) :
    ColumnChunkMetaData :=
  { file_offset := c.file_offset, num_values := c.num_values }

/-- Modelled from the spec: reader-side lift of one wire row group back
into `RowGroupMetaData` (field-for-field, chunk order preserved). -/
def WireRowGroup.from_thrift (w : WireRowGroup) : RowGroupMetaData :=
  { columns := w.columns.map WireColumnChunk.from_thrift,
    total_byte_size := w.total_byte_size,
    num_rows := w.num_rows }

mutual

/-- Modelled from the spec: parsing one schema node out of the flattened
wire schema list (inverse direction of `ParquetType.to_thrift`); `fuel`
bounds the recursion depth, `none` is a malformed wire schema. -/
def parseWireNode : Nat → List WireSchemaElement →
    Option (ParquetType × List WireSchemaElement)
  | 0, _ => none
  | _ + 1, [] => none
  | fuel + 1, e :: rest =>
      match e.num_children with
      | none =>
          match e.repetition, e.ty with
          | some rep, some ty =>
              some (ParquetType.Primitive e.name rep ty, rest)
          | _, _ => none
      | some n =>
          match e.repetition with
          | some rep =>
              (parseWireNodes fuel n.toNat rest).map
                (fun p => (ParquetType.Group e.name rep p.1, p.2))
          | none => none

/-- Modelled from the spec: parsing a counted sequence of sibling schema
nodes out of the flattened wire schema list. -/
def parseWireNodes : Nat → Nat → List WireSchemaElement →
    Option (List ParquetType × List WireSchemaElement)
  | _, 0, rest => some ([], rest)
  | 0, _ + 1, _ => none
  | fuel + 1, k + 1, elems =>
      match parseWireNode fuel elems with
      | some (t, rest) =>
          (parseWireNodes fuel k rest).map (fun p => (t :: p.1, p.2))
      | none => none

end

/-- Modelled from the spec: the reader-side `InterchangeBridge` lift of
the wire struct into `FileMetaData` ("a reader parses wire bytes into
wire structs, which InterchangeBridge lifts into FileMetaData"; the
reader path is not among the provided sources).  Fields are mapped back
field-for-field; the wire schema list is parsed back into the tree, and
a malformed list is the *not representable* error. -/
def FileMetaData.from_thrift (w : WireFileMetaData) :
    Except TranslationError FileMetaData :=
  match parseWireNode (w.schema.length + 1) w.schema with
  | some (root, []) =>
      .ok { version := w.version,
            num_rows := w.num_rows,
            created_by := w.created_by,
            row_groups := w.row_groups.map WireRowGroup.from_thrift,
            key_value_metadata := w.key_value_metadata,
            schema_descr := { root },
            column_orders := w.column_orders }
  | _ => .error { node := "schema" }

/-! ## Concrete sample values used by witnesses and counterexamples -/

/-- A one-leaf schema descriptor (a single primitive root). -/
def primSchemaDescr : SchemaDescriptor :=
  ⟨ParquetType.Primitive "a" Repetition.Required PhysicalType.Int32⟩

/-- A two-leaf schema descriptor: `Group("root", [Primitive("a"), Primitive("b")])`. -/
def rootSchemaDescr : SchemaDescriptor :=
  ⟨ParquetType.Group "root" Repetition.Required
    [ParquetType.Primitive "a" Repetition.Required PhysicalType.Int32,
     ParquetType.Primitive "b" Repetition.Required PhysicalType.Int32]⟩

/-- A file-metadata value whose `column_orders` holds exactly one entry,
`TypeDefinedOrder(Signed)`. -/
def oneOrderFMD : FileMetaData :=
  FileMetaData.new 1 0 none [] none primSchemaDescr
    (some [ColumnOrder.TypeDefinedOrder SortKind.Signed])

/-- C1 counterexample: with `column_orders = Some([TypeDefinedOrder(Signed)])`,
`column_order(1)` does not return `Undefined` — the source indexes the
vector with `data[i]`, which panics out of bounds (modelled as `none`). -/
theorem c1_counterexample :
    ¬ (oneOrderFMD.column_order 1 = some ColumnOrder.Undefined) := by
  decide

/-- C1 (amended): for every `FileMetaData` whose `column_orders` is
`Some(v)` and every index `i ≥ v.len()`, `column_order(i)` panics on the
out-of-bounds vector index `data[i]` (modelled as `none`) instead of
returning `Undefined`; `column_order(0)` on a one-entry list still
returns that entry. -/
theorem c1_amended (m : FileMetaData) (v : List ColumnOrder) (i : Nat)
    (hv : m.column_orders = some v) (hi : v.length ≤ i) :
    m.column_order i = none := by
  simp [FileMetaData.column_order, hv, List.get?_eq_none]
  exact hi

/-- C1 witness: the amended statement applied to the concrete
one-entry-column-orders metadata at index 1. -/
theorem c1_witness :
    oneOrderFMD.column_orders
        = some [ColumnOrder.TypeDefinedOrder SortKind.Signed] ∧
      ([ColumnOrder.TypeDefinedOrder SortKind.Signed] : List ColumnOrder).length ≤ 1 ∧
      oneOrderFMD.column_order 1 = none :=
  ⟨rfl, by decide,
    c1_amended oneOrderFMD [ColumnOrder.TypeDefinedOrder SortKind.Signed] 1
      rfl (by decide)⟩

/-- C2: `into_thrift` fails exactly when lowering the schema tree fails,
with the very same structured *schema not representable* error (which
carries the offending node); no other field mapping has an error path. -/
theorem c2_error_iff_schema (m : FileMetaData) (e : TranslationError) :
    m.into_thrift = Except.error e ↔
      ParquetType.to_thrift m.schema = Except.error e := by
  unfold FileMetaData.into_thrift
  cases h : ParquetType.to_thrift m.schema <;> simp [h]

/-- C3: whenever `into_thrift` succeeds, the wire struct carries
`version`, `num_rows`, `created_by` and `key_value_metadata` verbatim,
and its row-group list has the same length as the input's with wire row
group `i` produced from domain row group `i`. -/
theorem c3_field_mapping (m : FileMetaData) (w : WireFileMetaData)
    (h : m.into_thrift = Except.ok w) :
    w.version = m.version ∧
      w.num_rows = m.num_rows ∧
      w.created_by = m.created_by ∧
      w.key_value_metadata = m.key_value_metadata ∧
      w.row_groups.length = m.row_groups.length ∧
      ∀ i : Nat, w.row_groups.get? i
        = (m.row_groups.get? i).map RowGroupMetaData.to_thrift := by
  unfold FileMetaData.into_thrift at h
  cases hs : ParquetType.to_thrift m.schema <;> rw [hs] at h
  · exact absurd h (by simp)
  · cases h
    refine ⟨rfl, rfl, rfl, rfl, by simp, ?_⟩
    intro i
    simp [List.get?_eq_getElem?, List.getElem?_map]

/-- A file-metadata value with a primitive-root schema, on which
`into_thrift` succeeds. -/
def okFMD : FileMetaData :=
  FileMetaData.new 3 7 (some "w") [⟨[⟨4, 7⟩], 7, 9⟩] (some [⟨"k", some "v"⟩])
    primSchemaDescr (some [ColumnOrder.Undefined])

/-- The wire image of `okFMD` under `into_thrift`. -/
def okWire : WireFileMetaData :=
  { version := 3,
    schema := [⟨"a", some Repetition.Required, some PhysicalType.Int32, none⟩],
    num_rows := 7,
    row_groups := [⟨[⟨4, 7⟩], 9, 7⟩],
    key_value_metadata := some [⟨"k", some "v"⟩],
    created_by := some "w",
    column_orders := none }

/-- C3 witness: the field-mapping statement applied to the concrete
metadata `okFMD` and its wire image. -/
theorem c3_witness :
    okFMD.into_thrift = Except.ok okWire ∧
      (okWire.version = okFMD.version ∧
        okWire.num_rows = okFMD.num_rows ∧
        okWire.created_by = okFMD.created_by ∧
        okWire.key_value_metadata = okFMD.key_value_metadata ∧
        okWire.row_groups.length = okFMD.row_groups.length ∧
        ∀ i : Nat, okWire.row_groups.get? i
          = (okFMD.row_groups.get? i).map RowGroupMetaData.to_thrift) :=
  ⟨rfl, c3_field_mapping okFMD okWire rfl⟩

/-- C4: every successful lowering produces a wire struct whose
`column_orders` is absent, whatever the input's `column_orders` was
(the source hard-codes `column_orders: None // todo`). -/
theorem c4_column_orders_dropped (m : FileMetaData) (w : WireFileMetaData)
    (h : m.into_thrift = Except.ok w) :
    w.column_orders = none := by
  unfold FileMetaData.into_thrift at h
  cases hs : ParquetType.to_thrift m.schema <;> rw [hs] at h
  · exact absurd h (by simp)
  · cases h; rfl

/-- C4 witness: the dropped-column-orders statement applied to `okFMD`
(whose own `column_orders` is present) and its wire image. -/
theorem c4_witness :
    okFMD.into_thrift = Except.ok okWire ∧ okWire.column_orders = none :=
  ⟨rfl, c4_column_orders_dropped okFMD okWire rfl⟩

/-- C5: `new` is a pure, total aggregate constructor — it succeeds on
all argument values with no cross-field validation, and every field of
the result is the corresponding argument verbatim (in particular any
`num_rows`, consistent with the row groups or not, is accepted). -/
theorem c5_new_verbatim (version num_rows : Int)
    (created_by : Option String) (row_groups : List RowGroupMetaData)
    (key_value_metadata : Option (List KeyValue))
    (schema_descr : SchemaDescriptor)
    (column_orders : Option (List ColumnOrder)) :
    (FileMetaData.new version num_rows created_by row_groups
        key_value_metadata schema_descr column_orders).version = version ∧
      (FileMetaData.new version num_rows created_by row_groups
        key_value_metadata schema_descr column_orders).num_rows = num_rows ∧
      (FileMetaData.new version num_rows created_by row_groups
        key_value_metadata schema_descr column_orders).created_by = created_by ∧
      (FileMetaData.new version num_rows created_by row_groups
        key_value_metadata schema_descr column_orders).row_groups = row_groups ∧
      (FileMetaData.new version num_rows created_by row_groups
        key_value_metadata schema_descr column_orders).key_value_metadata
          = key_value_metadata ∧
      (FileMetaData.new version num_rows created_by row_groups
        key_value_metadata schema_descr column_orders).schema_descr
          = schema_descr ∧
      (FileMetaData.new version num_rows created_by row_groups
        key_value_metadata schema_descr column_orders).column_orders
          = column_orders :=
  ⟨rfl, rfl, rfl, rfl, rfl, rfl, rfl⟩

/-- C6: when `column_orders` is absent, `column_order(i)` is `Undefined`
for every index `i`. -/
theorem c6_absent_undefined (m : FileMetaData) (i : Nat)
    (h : m.column_orders = none) :
    m.column_order i = some ColumnOrder.Undefined := by
  simp [FileMetaData.column_order, h]

/-- A file-metadata value without column orders. -/
def noOrderFMD : FileMetaData :=
  FileMetaData.new 1 0 none [] none primSchemaDescr none

/-- C6 witness: the absent-column-orders statement applied to the
concrete metadata `noOrderFMD` at index 5. -/
theorem c6_witness :
    noOrderFMD.column_orders = none ∧
      noOrderFMD.column_order 5 = some ColumnOrder.Undefined :=
  ⟨rfl, c6_absent_undefined noOrderFMD 5 rfl⟩

/-- C7: when `column_orders` is `Some(v)` and `i < v.len()`,
`column_order(i)` returns the `i`-th stored entry. -/
theorem c7_present_in_range (m : FileMetaData) (v : List ColumnOrder)
    (i : Nat) (hv : m.column_orders = some v) (hi : i < v.length) :
    m.column_order i = some (v.get ⟨i, hi⟩) := by
  simp [FileMetaData.column_order, hv, List.get?_eq_get hi]

/-- C7 witness: the in-range statement applied to the concrete metadata
`oneOrderFMD` at index 0, returning `TypeDefinedOrder(Signed)`. -/
theorem c7_witness :
    oneOrderFMD.column_orders
        = some [ColumnOrder.TypeDefinedOrder SortKind.Signed] ∧
      (0 : Nat) < ([ColumnOrder.TypeDefinedOrder SortKind.Signed] : List ColumnOrder).length ∧
      oneOrderFMD.column_order 0
        = some (ColumnOrder.TypeDefinedOrder SortKind.Signed) :=
  ⟨rfl, by decide,
    c7_present_in_range oneOrderFMD
      [ColumnOrder.TypeDefinedOrder SortKind.Signed] 0 rfl (by decide)⟩

/-- The round-trip input of the spec's scenario: version 2, 10 rows,
written by "test", two row groups of 5 rows each, no key/value metadata
(column orders deliberately present, to show they are lost). -/
def rtFMD : FileMetaData :=
  FileMetaData.new 2 10 (some "test")
    [⟨[⟨0, 5⟩, ⟨8, 5⟩], 5, 16⟩, ⟨[⟨16, 5⟩, ⟨24, 5⟩], 5, 16⟩]
    none rootSchemaDescr
    (some [ColumnOrder.TypeDefinedOrder SortKind.Signed,
           ColumnOrder.TypeDefinedOrder SortKind.Unsigned])

/-- C8: lowering `rtFMD` to the wire form and lifting back succeeds and
reproduces `version`, `num_rows`, `created_by` and the per-row-group row
counts exactly, while `column_orders` is absent on the result even
though the input had one. -/
theorem c8_roundtrip :
    (rtFMD.into_thrift.bind FileMetaData.from_thrift).map
      (fun m2 => (m2.version, m2.num_rows, m2.created_by,
        m2.row_groups.map RowGroupMetaData.num_rows, m2.column_orders))
    = Except.ok (2, 10, some "test", [5, 5], none) := by
  rfl

/-- C9: `schema()` is total (it is a plain Lean function) and returns
exactly `schema_descr.root_schema()`, the root of the nested tree. -/
theorem c9_schema_is_root (m : FileMetaData) :
    m.schema = m.schema_descr.root_schema :=
  rfl

/-- C10: `column_order(i)` depends only on the `column_orders` field —
two metadata values with equal `column_orders` but arbitrary other
fields agree on `column_order(i)` for every `i` (in particular the
schema's leaf count is never consulted). -/
theorem c10_depends_only_on_orders (m1 m2 : FileMetaData) (i : Nat)
    (h : m1.column_orders = m2.column_orders) :
    m1.column_order i = m2.column_order i := by
  simp [FileMetaData.column_order, h]

/-- A file-metadata value sharing `oneOrderFMD`'s column orders but
differing in version, row count, writer, row groups, key/value metadata
and schema. -/
def otherFieldsFMD : FileMetaData :=
  FileMetaData.new 9 99 (some "other") [⟨[], 99, 1⟩] (some [⟨"x", none⟩])
    rootSchemaDescr (some [ColumnOrder.TypeDefinedOrder SortKind.Signed])

/-- C10 witness: the non-interference statement applied to the concrete
pair `oneOrderFMD` / `otherFieldsFMD` at index 0. -/
theorem c10_witness :
    oneOrderFMD.column_orders = otherFieldsFMD.column_orders ∧
      oneOrderFMD.column_order 0 = otherFieldsFMD.column_order 0 :=
  ⟨rfl, c10_depends_only_on_orders oneOrderFMD otherFieldsFMD 0 rfl⟩
